import Mathlib

/-
Verification of the es_todo event-sourced todo-list application
(src/es_todo/application/base.py) against its specification.

The TodoList aggregate, its domain events and their mutate functions, the
commands, and the UserListProjectionPolicy handlers are translated from the
source.  Pieces supplied by the eventsourcing library (entity initialisation,
the command pipeline, the Collection entity, the event bus) are not part of
this repository; each such definition carries a doc comment starting
"Modelled from the spec:".

UUIDs are modelled as natural numbers.  Python exceptions are modelled by the
PyError type; a command or mutator that raises returns Except.error, which in
particular leaves the caller's state unchanged (matching the source, where the
failing list operation raises before any field of the entity is modified).
-/

/-- Python sequence indexing: a negative index counts from the end; the index
is valid when the normalised index lies in [0, n). Returns the normalised
non-negative index, or none when Python would raise IndexError. -/
def pyIndex (n : Nat) (i : Int) : Option Nat :=
  let j : Int := if i < 0 then i + n else i
  if 0 ≤ j ∧ j < n then some j.toNat else none

/-- Python `xs[i] = a` on a list: returns the updated list, or none when
Python raises IndexError. -/
def pySet (xs : List String) (i : Int) (a : String) : Option (List String) :=
  (pyIndex xs.length i).map (fun j => xs.set j a)

/-- Python `xs.pop(i)` on a list (result list only): returns the list with the
element at i removed, or none when Python raises IndexError. -/
def pyPop (xs : List String) (i : Int) : Option (List String) :=
  (pyIndex xs.length i).map (fun j => xs.eraseIdx j)

/-- Python exceptions arising in the embedded code. -/
inductive PyError where
  | IndexError
  | AlreadyDiscarded
  | TypeError
  | AssertionError
  deriving DecidableEq

/-- State of the TodoList aggregate root: entity id, version, the owning
user's id, the list of items, and the tombstone flag (_is_discarded). -/
structure TodoList where
  id : Nat
  version : Nat
  user_id : Nat
  items : List String
  is_discarded : Bool
  deriving DecidableEq

/-- Domain events of the TodoList aggregate, as in the source: Started,
ItemAdded, ItemUpdated, ItemDiscarded, Discarded, each stamped with
originator_id and originator_version by _construct_event. -/
inductive TodoList.Event where
  | Started (originator_id : Nat) (originator_version : Nat) (user_id : Nat)
  | ItemAdded (originator_id : Nat) (originator_version : Nat) (item : String)
  | ItemUpdated (originator_id : Nat) (originator_version : Nat) (index : Int) (item : String)
  | ItemDiscarded (originator_id : Nat) (originator_version : Nat) (index : Int)
  | Discarded (originator_id : Nat) (originator_version : Nat) (user_id : Nat)
  deriving DecidableEq

namespace TodoList

/-- The sequence-number stamp carried by every event. -/
def Event.originator_version : Event → Nat
  | .Started _ v _ => v
  | .ItemAdded _ v _ => v
  | .ItemUpdated _ v _ _ => v
  | .ItemDiscarded _ v _ => v
  | .Discarded _ v _ => v

/-- TodoList.Started.mutate: `entity = cls(**self.__dict__)` followed by
`entity.increment_version()`.  Modelled from the spec: the library entity
initialiser (not in this repository) sets the new entity's version from the
creation event's sequence number, after which the increment in the source
advances it by one. -/
def Started_mutate (originator_id : Nat) (originator_version : Nat) (user_id : Nat) : TodoList :=
  { id := originator_id, version := originator_version + 1, user_id := user_id,
    items := [], is_discarded := false }

/-- Application of one event to an in-memory entity, one case per mutate
method of the source.  ItemAdded appends and increments the version;
ItemUpdated assigns items[index] (IndexError when out of range) and
increments; ItemDiscarded pops items[index] (IndexError when out of range)
and increments; Discarded sets _is_discarded and does not increment.
Applying a Started event to an existing entity is a type error. -/
def apply_event (s : TodoList) : Event → Except PyError TodoList
  | .Started _ _ _ => .error .TypeError
  | .ItemAdded _ _ it => .ok { s with items := s.items ++ [it], version := s.version + 1 }
  | .ItemUpdated _ _ i it =>
    match pySet s.items i it with
    | some xs => .ok { s with items := xs, version := s.version + 1 }
    | none => .error .IndexError
  | .ItemDiscarded _ _ i =>
    match pyPop s.items i with
    | some xs => .ok { s with items := xs, version := s.version + 1 }
    | none => .error .IndexError
  | .Discarded _ _ _ => .ok { s with is_discarded := true }

/-- One step of the repository mutator TodoList._mutate (reflexive mutator:
`event.mutate(initial or cls)`): with no state only a Started event applies,
producing the initial entity; Discarded.mutate returns None, so the folded
value after a Discarded event is no entity; other events mutate the entity. -/
def mutateStep : Option TodoList → Event → Except PyError (Option TodoList)
  | none, .Started oid v u => .ok (some (Started_mutate oid v u))
  | none, _ => .error .TypeError
  | some _, .Started _ _ _ => .error .TypeError
  | some s, .Discarded a b c => (s.apply_event (.Discarded a b c)).map (fun _ => none)
  | some s, e => (s.apply_event e).map some

/-- Fold of the repository mutator over a list of events from a given state. -/
def replayFold : Option TodoList → List Event → Except PyError (Option TodoList)
  | s, [] => .ok s
  | s, e :: es =>
    match mutateStep s e with
    | .ok s' => replayFold s' es
    | .error err => .error err

/-- EventSourcedRepository reconstruction: fold the stored events through
TodoList._mutate starting from no state. -/
def replay (es : List Event) : Except PyError (Option TodoList) :=
  replayFold none es

/-- Modelled from the spec: the library command pipeline
AggregateRoot._apply_and_publish together with _construct_event (the base
class is not in this repository).  A command on a tombstoned aggregate
"fails with an AlreadyDiscarded error — no further events may be applied";
otherwise the already-constructed event is applied to local state and
published.  Returns the new state together with the single event emitted. -/
def _apply_and_publish (s : TodoList) (e : Event) : Except PyError (TodoList × Event) :=
  if s.is_discarded then .error .AlreadyDiscarded
  else (s.apply_event e).map (fun s' => (s', e))

/-- The event constructed by TodoList.update_item before anything is applied:
_construct_event stamps originator_id = self.id, originator_version =
self.version. -/
def update_item_event (s : TodoList) (index : Int) (item : String) : Event :=
  .ItemUpdated s.id s.version index item

/-- The event constructed by TodoList.discard_item before anything is applied. -/
def discard_item_event (s : TodoList) (index : Int) : Event :=
  .ItemDiscarded s.id s.version index

/-- TodoList.add_item: construct an ItemAdded event and apply-and-publish it. -/
def add_item (s : TodoList) (item : String) : Except PyError (TodoList × Event) :=
  s._apply_and_publish (.ItemAdded s.id s.version item)

/-- TodoList.update_item: construct an ItemUpdated event and apply-and-publish
it; there is no bounds validation before construction. -/
def update_item (s : TodoList) (index : Int) (item : String) : Except PyError (TodoList × Event) :=
  s._apply_and_publish (s.update_item_event index item)

/-- TodoList.discard_item: construct an ItemDiscarded event and
apply-and-publish it; there is no bounds validation before construction. -/
def discard_item (s : TodoList) (index : Int) : Except PyError (TodoList × Event) :=
  s._apply_and_publish (s.discard_item_event index)

/-- TodoList.discard: construct a Discarded event and apply-and-publish it. -/
def discard (s : TodoList) : Except PyError (TodoList × Event) :=
  s._apply_and_publish (.Discarded s.id s.version s.user_id)

/-- TodoApp.start_todo_list builds a Started event with a fresh uuid4 and no
explicit originator_version and mutates it into the new entity.  Modelled
from the spec: the library default sequence number for a creation event is 0
("sequenceNumber (monotonic integer ≥ 0, 0 = creation)"). -/
def start (originator_id : Nat) (user_id : Nat) : TodoList :=
  Started_mutate originator_id 0 user_id

/-- The item-level commands of the aggregate (the terminal discard command is
treated separately, since its event ends the stream). -/
inductive Cmd where
  | addItem (item : String)
  | updateItem (index : Int) (item : String)
  | discardItem (index : Int)
  deriving DecidableEq

/-- Dispatch one command against the in-memory aggregate. -/
def runCmd (s : TodoList) : Cmd → Except PyError (TodoList × Event)
  | .addItem it => s.add_item it
  | .updateItem i it => s.update_item i it
  | .discardItem i => s.discard_item i

/-- Issue a sequence of commands in-memory, collecting the committed events
in commit order. -/
def runCmds : TodoList → List Cmd → Except PyError (TodoList × List Event)
  | s, [] => .ok (s, [])
  | s, c :: cs =>
    match runCmd s c with
    | .error err => .error err
    | .ok (s', ev) =>
      match runCmds s' cs with
      | .error err => .error err
      | .ok (s'', evs) => .ok (s'', ev :: evs)

end TodoList

/-
Application layer and projection policy.
-/

/-- The fixed namespace constant USER_LIST_COLLECTION_NS
(UUID af3e9b7b-22e0-4758-9b0b-c90949d4838e), modelled as its 128-bit value. -/
def USER_LIST_COLLECTION_NS : Nat := 0xaf3e9b7b22e047589b0bc90949d4838e

/-- Modelled from the spec: the external deterministic namespaced hash uuid5
("a stable deterministic hash function producing a UUID-shaped collection key
from a namespace constant plus arbitrary owner-identifier bytes"). -/
def uuid5 (ns : Nat) (nameBytes : List Nat) : Nat :=
  nameBytes.foldl (fun h b => h * 257 + b + 1) (ns + 1)

/-- Modelled from the spec: the byte encoding of a UUID value (user_id.bytes,
"owner id bytes"). -/
def uuidBytes (u : Nat) : List Nat :=
  Nat.digits 256 u

/-- make_user_list_collection_id(user_id, collection_ns): uuid5 of the
namespace and the user id's bytes. -/
def make_user_list_collection_id (user_id : Nat) (collection_ns : Nat) : Nat :=
  uuid5 collection_ns (uuidBytes user_id)

/-- The call made throughout the application: make_user_list_collection_id
with the default namespace argument USER_LIST_COLLECTION_NS. -/
def makeUserListCollectionIdDefault (user_id : Nat) : Nat :=
  make_user_list_collection_id user_id USER_LIST_COLLECTION_NS

/-- Modelled from the spec: the library Collection entity and its repository
(not in this repository; "an event-sourced set of member IDs keyed by an
owner/grouping key"): the repository is a map from collection id to the
collection's member list; a missing key raises KeyError (here: none). -/
structure Collections where
  store : List (Nat × List Nat)
  deriving DecidableEq

/-- Repository lookup user_list_collections[collection_id]. -/
def Collections.lookup (c : Collections) (cid : Nat) : Option (List Nat) :=
  (c.store.find? (fun p => p.1 == cid)).map (fun p => p.2)

/-- Store the given member list under the given collection id (covers
register_new_collection, Collection.add_item and Collection.remove_item
persisting their effect). -/
def Collections.setItems (c : Collections) (cid : Nat) (items : List Nat) : Collections :=
  ⟨(cid, items) :: c.store.filter (fun p => p.1 != cid)⟩

/-- TodoApp.get_todo_list_ids: derive the collection id for the user, return
the collection's items, or an empty list when the repository raises KeyError. -/
def get_todo_list_ids (c : Collections) (user_id : Nat) : List Nat :=
  match c.lookup (makeUserListCollectionIdDefault user_id) with
  | none => []
  | some items => items

/-- The argument shape a policy handler can be invoked with: a single event,
or a batch (a Python list or tuple of events) from one save call. -/
inductive EventArg where
  | single (e : TodoList.Event)
  | batch (es : List TodoList.Event)
  deriving DecidableEq

/-- Whether one event is a TodoList.Started event. -/
def isStartedEvent : TodoList.Event → Bool
  | .Started _ _ _ => true
  | _ => false

/-- Whether one event is a TodoList.Discarded event. -/
def isDiscardedEvent : TodoList.Event → Bool
  | .Discarded _ _ _ => true
  | _ => false

/-- UserListProjectionPolicy.is_list_started: on a list or tuple, all
elements must satisfy the predicate; otherwise an isinstance check. -/
def is_list_started : EventArg → Bool
  | .single e => isStartedEvent e
  | .batch es => es.all isStartedEvent

/-- UserListProjectionPolicy.is_list_discarded: on a list or tuple, all
elements must satisfy the predicate; otherwise an isinstance check. -/
def is_list_discarded : EventArg → Bool
  | .single e => isDiscardedEvent e
  | .batch es => es.all isDiscardedEvent

/-- Effect of add_list_to_collection on one Started event: derive the
collection id; on KeyError register a new empty collection; add the event's
originator_id to the collection. -/
def add_list_to_collection_single (c : Collections) (originator_id : Nat) (user_id : Nat) : Collections :=
  let cid := makeUserListCollectionIdDefault user_id
  match c.lookup cid with
  | none => c.setItems cid [originator_id]
  | some items => c.setItems cid (items ++ [originator_id])

/-- UserListProjectionPolicy.add_list_to_collection: the body begins with
`assert isinstance(event, TodoList.Started)`, so a batch (list or tuple)
argument, or a single event of another type, raises AssertionError and
nothing is processed; a single Started event is added to the owner's
collection. -/
def add_list_to_collection (c : Collections) : EventArg → Except PyError Collections
  | .single (.Started oid _ u) => .ok (add_list_to_collection_single c oid u)
  | _ => .error .AssertionError

/-- Effect of remove_list_from_collection on one Discarded event: derive the
collection id; on KeyError do nothing; otherwise remove the event's
originator_id from the collection. -/
def remove_list_from_collection_single (c : Collections) (originator_id : Nat) (user_id : Nat) : Collections :=
  let cid := makeUserListCollectionIdDefault user_id
  match c.lookup cid with
  | none => c
  | some items => c.setItems cid (items.erase originator_id)

/-- UserListProjectionPolicy.remove_list_from_collection: a batch (list or
tuple) argument takes the `return map(self.remove_list_from_collection,
event)` branch — under Python 3 the map object is lazy and never consumed, so
no element is processed and the state is unchanged; a single event must pass
`assert isinstance(event, TodoList.Discarded)` and is then removed from the
owner's collection. -/
def remove_list_from_collection (c : Collections) : EventArg → Except PyError Collections
  | .batch _ => .ok c
  | .single (.Discarded oid _ u) => .ok (remove_list_from_collection_single c oid u)
  | .single _ => .error .AssertionError

/-- Modelled from the spec: the library publish/subscribe event bus (not in
this repository; "invokes every subscriber whose predicate matches, in
subscription order"): dispatch one published argument to the two handlers
subscribed by UserListProjectionPolicy. -/
def publish_to_policy (c : Collections) (arg : EventArg) : Except PyError Collections := do
  let c1 ← if is_list_started arg then add_list_to_collection c arg else pure c
  if is_list_discarded arg then remove_list_from_collection c1 arg else pure c1

/-- TodoApp.start_todo_list followed by the synchronous policy reaction:
construct a Started event with a fresh uuid4 (here the freshId parameter) and
the creation-default sequence number 0, mutate it into the new entity,
publish the single event, and return the new entity's id. -/
def start_todo_list (c : Collections) (freshId : Nat) (user_id : Nat) : Except PyError (Collections × Nat) :=
  (publish_to_policy c (.single (.Started freshId 0 user_id))).map
    (fun c' => (c', (TodoList.start freshId user_id).id))

/-
Helper lemmas for the replay refinement (C1).
-/

/-- A successful item-level command takes the same step in memory as the
repository mutator takes on the emitted event, advances the version by one,
and leaves the aggregate live. -/
theorem runCmd_mutateStep (s : TodoList) (c : TodoList.Cmd) (s1 : TodoList)
    (ev : TodoList.Event) (hd : s.is_discarded = false)
    (h : TodoList.runCmd s c = .ok (s1, ev)) :
    TodoList.mutateStep (some s) ev = .ok (some s1) ∧ s1.version = s.version + 1 ∧
      s1.is_discarded = false := by
  cases c with
  | addItem it =>
    simp only [TodoList.runCmd, TodoList.add_item, TodoList._apply_and_publish, hd,
      Bool.false_eq_true, if_false, TodoList.apply_event, Except.map, Except.ok.injEq,
      Prod.mk.injEq] at h
    obtain ⟨h1, h2⟩ := h
    subst h1; subst h2
    refine ⟨?_, rfl, rfl⟩
    simp [TodoList.mutateStep, TodoList.apply_event, Except.map, hd]
  | updateItem i it =>
    simp only [TodoList.runCmd, TodoList.update_item, TodoList.update_item_event,
      TodoList._apply_and_publish, hd, Bool.false_eq_true, if_false,
      TodoList.apply_event] at h
    cases hp : pySet s.items i it with
    | none => rw [hp] at h; simp [Except.map] at h
    | some xs =>
      rw [hp] at h
      simp only [Except.map, Except.ok.injEq, Prod.mk.injEq] at h
      obtain ⟨h1, h2⟩ := h
      subst h1; subst h2
      refine ⟨?_, rfl, rfl⟩
      simp [TodoList.mutateStep, TodoList.apply_event, hp, Except.map, hd]
  | discardItem i =>
    simp only [TodoList.runCmd, TodoList.discard_item, TodoList.discard_item_event,
      TodoList._apply_and_publish, hd, Bool.false_eq_true, if_false,
      TodoList.apply_event] at h
    cases hp : pyPop s.items i with
    | none => rw [hp] at h; simp [Except.map] at h
    | some xs =>
      rw [hp] at h
      simp only [Except.map, Except.ok.injEq, Prod.mk.injEq] at h
      obtain ⟨h1, h2⟩ := h
      subst h1; subst h2
      refine ⟨?_, rfl, rfl⟩
      simp [TodoList.mutateStep, TodoList.apply_event, hp, Except.map, hd]

/-- Replaying the events emitted by a successful command sequence from the
state the sequence started in reproduces exactly the final in-memory state,
with the version advanced by the number of events. -/
theorem runCmds_replayFold (cs : List TodoList.Cmd) :
    ∀ (s s' : TodoList) (evs : List TodoList.Event), s.is_discarded = false →
      TodoList.runCmds s cs = .ok (s', evs) →
      TodoList.replayFold (some s) evs = .ok (some s') ∧
        s'.version = s.version + evs.length ∧ s'.is_discarded = false := by
  induction cs with
  | nil =>
    intro s s' evs hd h
    simp only [TodoList.runCmds, Except.ok.injEq, Prod.mk.injEq] at h
    obtain ⟨h1, h2⟩ := h
    subst h1; subst h2
    exact ⟨rfl, rfl, hd⟩
  | cons c cs ih =>
    intro s s' evs hd h
    simp only [TodoList.runCmds] at h
    cases hc : TodoList.runCmd s c with
    | error e => rw [hc] at h; simp at h
    | ok p =>
      obtain ⟨s1, ev⟩ := p
      rw [hc] at h
      dsimp only at h
      cases hr : TodoList.runCmds s1 cs with
      | error e => rw [hr] at h; simp at h
      | ok q =>
        obtain ⟨s2, evs2⟩ := q
        rw [hr] at h
        dsimp only at h
        simp only [Except.ok.injEq, Prod.mk.injEq] at h
        obtain ⟨h1, h2⟩ := h
        subst h1; subst h2
        obtain ⟨m1, m2, m3⟩ := runCmd_mutateStep s c s1 ev hd hc
        obtain ⟨r1, r2, r3⟩ := ih s1 s2 evs2 m3 hr
        refine ⟨?_, ?_, r3⟩
        · simp only [TodoList.replayFold, m1]
          exact r1
        · rw [r2, m2]
          simp [List.length_cons]
          omega

/-- Appending events to a replayed stream continues the fold from the state
reached so far. -/
theorem replayFold_append (as bs : List TodoList.Event) :
    ∀ (st m : Option TodoList), TodoList.replayFold st as = .ok m →
      TodoList.replayFold st (as ++ bs) = TodoList.replayFold m bs := by
  induction as with
  | nil =>
    intro st m h
    simp only [TodoList.replayFold, Except.ok.injEq] at h
    subst h
    rfl
  | cons e as ih =>
    intro st m h
    simp only [TodoList.replayFold] at h ⊢
    cases hm : TodoList.mutateStep st e with
    | error err => rw [hm] at h; simp at h
    | ok st' =>
      rw [hm] at h
      dsimp only at h ⊢
      exact ih st' m h

/-- C1: the claimed version N−1 after replaying N committed events is wrong;
replaying a single Started event yields the in-memory creation state, whose
version is 1, not 1 − 1 = 0. -/
theorem replay_single_started_version_ne_pred :
    TodoList.replay [.Started 7 0 42] = .ok (some ⟨7, 1, 42, [], false⟩) ∧
      ¬ ((1 : Nat) = [TodoList.Event.Started 7 0 42].length - 1) := by
  exact ⟨rfl, by decide⟩

/-- C1 (amended): for every sequence of N committed events on one aggregate
(a Started event followed by the events of successful item-level commands),
folding them through the TodoList mutator from no state yields exactly the
final in-memory aggregate, whose version is N (the last event's sequence
number is N−1); if the aggregate is then discarded, folding the stream with
the terminal Discarded event yields no entity, while in memory the aggregate
object remains, flagged discarded. -/
theorem replay_commands_refines_in_memory (oid u : Nat) (cs : List TodoList.Cmd)
    (s : TodoList) (evs : List TodoList.Event)
    (h : TodoList.runCmds (TodoList.start oid u) cs = .ok (s, evs)) :
    TodoList.replay (.Started oid 0 u :: evs) = .ok (some s) ∧
      s.version = (TodoList.Event.Started oid 0 u :: evs).length ∧
      (∀ (sd : TodoList) (evd : TodoList.Event), TodoList.discard s = .ok (sd, evd) →
        TodoList.replay (.Started oid 0 u :: (evs ++ [evd])) = .ok none ∧
          sd.is_discarded = true) := by
  obtain ⟨r1, r2, r3⟩ := runCmds_replayFold cs (TodoList.start oid u) s evs rfl h
  have hstart : ∀ (es : List TodoList.Event),
      TodoList.replay (.Started oid 0 u :: es)
        = TodoList.replayFold (some (TodoList.start oid u)) es := fun _ => rfl
  refine ⟨?_, ?_, ?_⟩
  · rw [hstart]; exact r1
  · rw [r2]; simp [TodoList.start, TodoList.Started_mutate]; omega
  · intro sd evd hdisc
    simp only [TodoList.discard, TodoList._apply_and_publish, r3, Bool.false_eq_true,
      if_false, TodoList.apply_event, Except.map, Except.ok.injEq, Prod.mk.injEq] at hdisc
    obtain ⟨h1, h2⟩ := hdisc
    subst h1; subst h2
    constructor
    · rw [hstart, replayFold_append evs _ (some (TodoList.start oid u)) (some s) r1]
      simp [TodoList.replayFold, TodoList.mutateStep, TodoList.apply_event, Except.map]
    · rfl

/-- C1 witness: the amended statement evaluated on the concrete command
sequence [addItem "a"] issued after creation. -/
theorem replay_commands_refines_witness :
    TodoList.replay [.Started 7 0 42, .ItemAdded 7 1 "a"]
        = .ok (some ⟨7, 2, 42, ["a"], false⟩) ∧
      (2 : Nat) = [TodoList.Event.Started 7 0 42, .ItemAdded 7 1 "a"].length ∧
      TodoList.replay [.Started 7 0 42, .ItemAdded 7 1 "a", .Discarded 7 2 42] = .ok none := by
  have main := replay_commands_refines_in_memory 7 42 [.addItem "a"]
    ⟨7, 2, 42, ["a"], false⟩ [.ItemAdded 7 1 "a"] rfl
  refine ⟨main.1, main.2.1, ?_⟩
  have hd := (main.2.2 ⟨7, 2, 42, ["a"], true⟩ (.Discarded 7 2 42) rfl).1
  exact hd

/-- C2: the projection handlers do not accept the batch shape: the
subscription predicate is_list_started accepts a batch of Started events, yet
add_list_to_collection begins with an assertion that its argument is a single
Started event, so a batch from one save call raises AssertionError and no
event of the batch is processed. -/
theorem add_list_to_collection_batch_assertion_fails :
    is_list_started (.batch [.Started 9 0 42]) = true ∧
      add_list_to_collection ⟨[]⟩ (.batch [.Started 9 0 42]) = .error .AssertionError ∧
      add_list_to_collection ⟨[]⟩ (.single (.Started 9 0 42))
        = .ok ⟨[(makeUserListCollectionIdDefault 42, [9])]⟩ := by
  refine ⟨rfl, rfl, ?_⟩
  simp [add_list_to_collection, add_list_to_collection_single, Collections.lookup,
    Collections.setItems]

/-- C3: contrary to the claim, an out-of-range index does not make the
command fail before an event is constructed: update_item on an empty list
constructs the ItemUpdated event and then fails while applying it. -/
theorem update_item_out_of_range_constructs_event :
    TodoList.update_item_event (TodoList.start 7 42) 0 "x" = .ItemUpdated 7 1 0 "x" ∧
      TodoList.update_item (TodoList.start 7 42) 0 "x"
        = TodoList._apply_and_publish (TodoList.start 7 42) (.ItemUpdated 7 1 0 "x") ∧
      TodoList._apply_and_publish (TodoList.start 7 42) (.ItemUpdated 7 1 0 "x")
        = .error .IndexError :=
  ⟨rfl, rfl, rfl⟩

/-- C3 (amended): on a live aggregate, update_item and discard_item with an
index that is out of range in Python's sense (normalised index outside
[0, length)) construct their event and then fail with IndexError while
applying it, returning no new state: the aggregate's state and version are
unchanged. -/
theorem item_commands_out_of_range_fail_state_unchanged (s : TodoList) (i : Int)
    (it : String) (hd : s.is_discarded = false)
    (hi : pyIndex s.items.length i = none) :
    TodoList.update_item s i it
        = TodoList._apply_and_publish s (TodoList.update_item_event s i it) ∧
      TodoList.update_item s i it = .error .IndexError ∧
      TodoList.discard_item s i
        = TodoList._apply_and_publish s (TodoList.discard_item_event s i) ∧
      TodoList.discard_item s i = .error .IndexError := by
  refine ⟨rfl, ?_, rfl, ?_⟩ <;>
    simp [TodoList.update_item, TodoList.discard_item, TodoList._apply_and_publish, hd,
      TodoList.apply_event, TodoList.update_item_event, TodoList.discard_item_event,
      pySet, pyPop, hi, Except.map]

/-- C3 witness: the amended statement evaluated on a fresh empty list with
index 1. -/
theorem item_commands_out_of_range_witness :
    TodoList.update_item (TodoList.start 8 43) 1 "x" = .error .IndexError ∧
      TodoList.discard_item (TodoList.start 8 43) 1 = .error .IndexError := by
  have h := item_commands_out_of_range_fail_state_unchanged (TodoList.start 8 43) 1 "x" rfl rfl
  exact ⟨h.2.1, h.2.2.2⟩

/-- C4: once discard has succeeded, the aggregate is tombstoned and every
further command — add_item, update_item, discard_item and discard itself —
fails with AlreadyDiscarded, returning no new state and emitting no event. -/
theorem commands_after_discard_fail_already_discarded (s sd : TodoList)
    (evd : TodoList.Event) (i : Int) (it : String)
    (h : TodoList.discard s = .ok (sd, evd)) :
    sd.is_discarded = true ∧
      TodoList.add_item sd it = .error .AlreadyDiscarded ∧
      TodoList.update_item sd i it = .error .AlreadyDiscarded ∧
      TodoList.discard_item sd i = .error .AlreadyDiscarded ∧
      TodoList.discard sd = .error .AlreadyDiscarded := by
  cases hsd : s.is_discarded with
  | true => simp [TodoList.discard, TodoList._apply_and_publish, hsd] at h
  | false =>
    simp only [TodoList.discard, TodoList._apply_and_publish, hsd, Bool.false_eq_true,
      if_false, TodoList.apply_event, Except.map, Except.ok.injEq, Prod.mk.injEq] at h
    obtain ⟨h1, h2⟩ := h
    subst h1
    exact ⟨rfl, rfl, rfl, rfl, rfl⟩

/-- C4 witness: the statement evaluated after discarding a fresh list. -/
theorem commands_after_discard_witness :
    (⟨7, 1, 42, [], true⟩ : TodoList).is_discarded = true ∧
      TodoList.add_item ⟨7, 1, 42, [], true⟩ "a" = .error .AlreadyDiscarded ∧
      TodoList.update_item ⟨7, 1, 42, [], true⟩ 0 "a" = .error .AlreadyDiscarded ∧
      TodoList.discard_item ⟨7, 1, 42, [], true⟩ 0 = .error .AlreadyDiscarded ∧
      TodoList.discard ⟨7, 1, 42, [], true⟩ = .error .AlreadyDiscarded :=
  commands_after_discard_fail_already_discarded (TodoList.start 7 42) ⟨7, 1, 42, [], true⟩
    (.Discarded 7 1 42) 0 "a" rfl

/-- C7: scenario B on a freshly started list: add_item "item1" makes the
items ["item1"]; update_item 0 "item1.1" makes them ["item1.1"]; discard_item
0 makes them [] — ItemAdded appends, ItemUpdated replaces at its index,
ItemDiscarded removes at its index. -/
theorem scenario_b_item_lifecycle :
    TodoList.add_item (TodoList.start 7 42) "item1"
        = .ok (⟨7, 2, 42, ["item1"], false⟩, .ItemAdded 7 1 "item1") ∧
      TodoList.update_item ⟨7, 2, 42, ["item1"], false⟩ 0 "item1.1"
        = .ok (⟨7, 3, 42, ["item1.1"], false⟩, .ItemUpdated 7 2 0 "item1.1") ∧
      TodoList.discard_item ⟨7, 3, 42, ["item1.1"], false⟩ 0
        = .ok (⟨7, 4, 42, [], false⟩, .ItemDiscarded 7 3 0) :=
  ⟨rfl, rfl, rfl⟩

/-- C8: contrary to the claim, a successful discard does not advance the
version: on a fresh list (version 1) the Discarded event is stamped with
sequence number 1 but the aggregate's version stays 1, not 2 — its mutate
only sets the tombstone flag and never calls increment_version. -/
theorem discard_does_not_increment_version :
    TodoList.discard (TodoList.start 7 42)
        = .ok (⟨7, 1, 42, [], true⟩, .Discarded 7 1 42) ∧
      (TodoList.start 7 42).version = 1 ∧
      ¬ ((1 : Nat) = (TodoList.start 7 42).version + 1) :=
  ⟨rfl, rfl, by decide⟩

/-- C8 (amended): every successful command constructs exactly one event,
stamped with originator_version equal to the aggregate's version before the
command; add_item, update_item and discard_item leave the version exactly one
greater, while discard leaves the version unchanged (its mutate only sets the
tombstone flag). -/
theorem command_event_version_stamping (s sr : TodoList) (ev : TodoList.Event)
    (i : Int) (it : String) :
    (TodoList.add_item s it = .ok (sr, ev) →
        ev.originator_version = s.version ∧ sr.version = s.version + 1) ∧
      (TodoList.update_item s i it = .ok (sr, ev) →
        ev.originator_version = s.version ∧ sr.version = s.version + 1) ∧
      (TodoList.discard_item s i = .ok (sr, ev) →
        ev.originator_version = s.version ∧ sr.version = s.version + 1) ∧
      (TodoList.discard s = .ok (sr, ev) →
        ev.originator_version = s.version ∧ sr.version = s.version) := by
  cases hsd : s.is_discarded with
  | true =>
    refine ⟨?_, ?_, ?_, ?_⟩ <;> intro h <;>
      simp [TodoList.add_item, TodoList.update_item, TodoList.discard_item, TodoList.discard,
        TodoList._apply_and_publish, hsd] at h
  | false =>
    refine ⟨?_, ?_, ?_, ?_⟩ <;> intro h
    · simp only [TodoList.add_item, TodoList._apply_and_publish, hsd, Bool.false_eq_true,
        if_false, TodoList.apply_event, Except.map, Except.ok.injEq, Prod.mk.injEq] at h
      obtain ⟨h1, h2⟩ := h
      subst h1; subst h2
      exact ⟨rfl, rfl⟩
    · simp only [TodoList.update_item, TodoList.update_item_event,
        TodoList._apply_and_publish, hsd, Bool.false_eq_true, if_false,
        TodoList.apply_event] at h
      cases hp : pySet s.items i it with
      | none => rw [hp] at h; simp [Except.map] at h
      | some xs =>
        rw [hp] at h
        simp only [Except.map, Except.ok.injEq, Prod.mk.injEq] at h
        obtain ⟨h1, h2⟩ := h
        subst h1; subst h2
        exact ⟨rfl, rfl⟩
    · simp only [TodoList.discard_item, TodoList.discard_item_event,
        TodoList._apply_and_publish, hsd, Bool.false_eq_true, if_false,
        TodoList.apply_event] at h
      cases hp : pyPop s.items i with
      | none => rw [hp] at h; simp [Except.map] at h
      | some xs =>
        rw [hp] at h
        simp only [Except.map, Except.ok.injEq, Prod.mk.injEq] at h
        obtain ⟨h1, h2⟩ := h
        subst h1; subst h2
        exact ⟨rfl, rfl⟩
    · simp only [TodoList.discard, TodoList._apply_and_publish, hsd, Bool.false_eq_true,
        if_false, TodoList.apply_event, Except.map, Except.ok.injEq, Prod.mk.injEq] at h
      obtain ⟨h1, h2⟩ := h
      subst h1; subst h2
      exact ⟨rfl, rfl⟩

/-- C8 witness: the amended statement evaluated for each command on a list
holding one item at version 2. -/
theorem command_event_version_stamping_witness :
    ((TodoList.Event.ItemAdded 7 2 "b").originator_version = 2 ∧ (3 : Nat) = 2 + 1) ∧
      ((TodoList.Event.ItemUpdated 7 2 0 "z").originator_version = 2 ∧ (3 : Nat) = 2 + 1) ∧
      ((TodoList.Event.ItemDiscarded 7 2 0).originator_version = 2 ∧ (3 : Nat) = 2 + 1) ∧
      ((TodoList.Event.Discarded 7 2 42).originator_version = 2 ∧ (2 : Nat) = 2) := by
  refine ⟨?_, ?_, ?_, ?_⟩
  · exact (command_event_version_stamping ⟨7, 2, 42, ["a"], false⟩ ⟨7, 3, 42, ["a", "b"], false⟩
      (.ItemAdded 7 2 "b") 0 "b").1 rfl
  · exact (command_event_version_stamping ⟨7, 2, 42, ["a"], false⟩ ⟨7, 3, 42, ["z"], false⟩
      (.ItemUpdated 7 2 0 "z") 0 "z").2.1 rfl
  · exact (command_event_version_stamping ⟨7, 2, 42, ["a"], false⟩ ⟨7, 3, 42, [], false⟩
      (.ItemDiscarded 7 2 0) 0 "z").2.2.1 rfl
  · exact (command_event_version_stamping ⟨7, 2, 42, ["a"], false⟩ ⟨7, 2, 42, ["a"], true⟩
      (.Discarded 7 2 42) 0 "z").2.2.2 rfl

/-- C9: the collection id for an owner is a deterministic function of the
owner id alone: the application's call (with the default namespace argument)
computes uuid5 of the fixed constant USER_LIST_COLLECTION_NS and the owner
id's bytes, and the query path reads exactly that key, so every invocation
for the same owner reproduces the same collection id. -/
theorem collection_id_deterministic_fixed_namespace (u : Nat) :
    makeUserListCollectionIdDefault u = uuid5 USER_LIST_COLLECTION_NS (uuidBytes u) ∧
      make_user_list_collection_id u USER_LIST_COLLECTION_NS
        = uuid5 USER_LIST_COLLECTION_NS (uuidBytes u) ∧
      (∀ (c : Collections), get_todo_list_ids c u
        = match c.lookup (uuid5 USER_LIST_COLLECTION_NS (uuidBytes u)) with
          | none => []
          | some items => items) :=
  ⟨rfl, rfl, fun _ => rfl⟩

/-- Looking up a collection id immediately after storing items under it
returns exactly those items. -/
theorem Collections.lookup_setItems (c : Collections) (cid : Nat) (xs : List Nat) :
    (c.setItems cid xs).lookup cid = some xs := by
  simp [Collections.lookup, Collections.setItems]

/-- C5: for an owner with no collection, get_todo_list_ids returns the empty
list; start_todo_list then returns a fresh id L1 and the synchronous
projection registers a new collection holding exactly L1, so
get_todo_list_ids now returns [L1]. -/
theorem query_collection_empty_then_start_singleton (c : Collections) (u fresh : Nat)
    (h : c.lookup (makeUserListCollectionIdDefault u) = none) :
    get_todo_list_ids c u = [] ∧
      start_todo_list c fresh u
        = .ok (c.setItems (makeUserListCollectionIdDefault u) [fresh], fresh) ∧
      get_todo_list_ids (c.setItems (makeUserListCollectionIdDefault u) [fresh]) u
        = [fresh] := by
  refine ⟨?_, ?_, ?_⟩
  · simp [get_todo_list_ids, h]
  · simp [start_todo_list, publish_to_policy, is_list_started, is_list_discarded,
      isStartedEvent, isDiscardedEvent, add_list_to_collection,
      add_list_to_collection_single, h, TodoList.start, TodoList.Started_mutate,
      Except.map, Bind.bind, Except.bind, pure, Except.pure]
  · simp [get_todo_list_ids, Collections.lookup_setItems]

/-- C5 witness: the statement evaluated for owner 42 with an empty store and
fresh id 9. -/
theorem query_collection_empty_then_start_witness :
    get_todo_list_ids ⟨[]⟩ 42 = [] ∧
      start_todo_list ⟨[]⟩ 9 42
        = .ok (Collections.setItems ⟨[]⟩ (makeUserListCollectionIdDefault 42) [9], 9) ∧
      get_todo_list_ids (Collections.setItems ⟨[]⟩ (makeUserListCollectionIdDefault 42) [9]) 42
        = [9] :=
  query_collection_empty_then_start_singleton ⟨[]⟩ 42 9 rfl

/-- C6: publishing a Discarded event for list L1 owned by u removes L1 from
u's collection, so get_todo_list_ids returns the empty list again; if no
collection exists for u, handling the event is a no-op returning the state
unchanged and raising no error. -/
theorem discarded_event_removes_list_or_noop (c : Collections) (u L1 v : Nat) :
    (c.lookup (makeUserListCollectionIdDefault u) = some [L1] →
      publish_to_policy c (.single (.Discarded L1 v u))
          = .ok (c.setItems (makeUserListCollectionIdDefault u) []) ∧
        get_todo_list_ids (c.setItems (makeUserListCollectionIdDefault u) []) u = []) ∧
      (c.lookup (makeUserListCollectionIdDefault u) = none →
        publish_to_policy c (.single (.Discarded L1 v u)) = .ok c) := by
  constructor
  · intro h
    constructor
    · simp [publish_to_policy, is_list_started, is_list_discarded, isStartedEvent,
        isDiscardedEvent, remove_list_from_collection, remove_list_from_collection_single,
        h, Except.map, Bind.bind, Except.bind, pure, Except.pure]
    · simp [get_todo_list_ids, Collections.lookup_setItems]
  · intro h
    simp [publish_to_policy, is_list_started, is_list_discarded, isStartedEvent,
      isDiscardedEvent, remove_list_from_collection, remove_list_from_collection_single,
      h, Except.map, Bind.bind, Except.bind, pure, Except.pure]

/-- C6 witness: the statement evaluated with owner 42 and list id 9, once
with the collection holding exactly 9 and once with no collection at all. -/
theorem discarded_event_removes_list_witness :
    (publish_to_policy ⟨[(makeUserListCollectionIdDefault 42, [9])]⟩ (.single (.Discarded 9 1 42))
        = .ok (Collections.setItems ⟨[(makeUserListCollectionIdDefault 42, [9])]⟩
            (makeUserListCollectionIdDefault 42) []) ∧
      get_todo_list_ids (Collections.setItems ⟨[(makeUserListCollectionIdDefault 42, [9])]⟩
          (makeUserListCollectionIdDefault 42) []) 42 = []) ∧
      publish_to_policy ⟨[]⟩ (.single (.Discarded 9 1 42)) = .ok ⟨[]⟩ := by
  refine ⟨?_, ?_⟩
  · exact (discarded_event_removes_list_or_noop ⟨[(makeUserListCollectionIdDefault 42, [9])]⟩
      42 9 1).1 (by simp [Collections.lookup])
  · exact (discarded_event_removes_list_or_noop ⟨[]⟩ 42 9 1).2 rfl

/-- Python index −1 on a non-empty list normalises to the last position. -/
theorem pyIndex_neg_one (n : Nat) (hn : 0 < n) : pyIndex n (-1) = some (n - 1) := by
  unfold pyIndex
  have h1 : ((-1 : Int) < 0) := by norm_num
  simp only [if_pos h1]
  have h2 : 0 ≤ (-1 : Int) + n ∧ (-1 : Int) + n < n := by omega
  rw [if_pos h2]
  have h3 : ((-1 : Int) + n).toNat = n - 1 := by omega
  rw [h3]

/-- Assigning at the last position replaces the final element. -/
theorem set_last_eq_dropLast_append (xs : List String) (a : String) (h : xs ≠ []) :
    xs.set (xs.length - 1) a = xs.dropLast ++ [a] := by
  have hlen : 0 < xs.length := List.length_pos.mpr h
  rw [List.set_eq_take_cons_drop a (by omega), List.dropLast_eq_take]
  rw [show xs.length - 1 + 1 = xs.length from by omega, List.drop_length]

/-- C10: with a non-empty items list, update_item (−1) succeeds and replaces
the last item, and discard_item (−1) succeeds and removes the last item:
Python negative indexing applies at the command interface instead of an
out-of-range failure. -/
theorem negative_index_updates_and_discards_last (s : TodoList) (it : String)
    (hd : s.is_discarded = false) (hne : s.items ≠ []) :
    TodoList.update_item s (-1) it
        = .ok ({ s with items := s.items.dropLast ++ [it], version := s.version + 1 },
            .ItemUpdated s.id s.version (-1) it) ∧
      TodoList.discard_item s (-1)
        = .ok ({ s with items := s.items.dropLast, version := s.version + 1 },
            .ItemDiscarded s.id s.version (-1)) := by
  have hlen : 0 < s.items.length := List.length_pos.mpr hne
  have hidx := pyIndex_neg_one s.items.length hlen
  have hset := set_last_eq_dropLast_append s.items it hne
  have herase : s.items.eraseIdx (s.items.length - 1) = s.items.dropLast :=
    (List.dropLast_eq_eraseIdx (by omega)).symm
  constructor
  · simp [TodoList.update_item, TodoList.update_item_event, TodoList._apply_and_publish,
      hd, TodoList.apply_event, pySet, hidx, hset, Except.map]
  · simp [TodoList.discard_item, TodoList.discard_item_event, TodoList._apply_and_publish,
      hd, TodoList.apply_event, pyPop, hidx, herase, Except.map]

/-- C10 witness: the statement evaluated on a list holding ["a", "b"]. -/
theorem negative_index_witness :
    TodoList.update_item ⟨7, 2, 42, ["a", "b"], false⟩ (-1) "z"
        = .ok (⟨7, 3, 42, ["a", "z"], false⟩, .ItemUpdated 7 2 (-1) "z") ∧
      TodoList.discard_item ⟨7, 2, 42, ["a", "b"], false⟩ (-1)
        = .ok (⟨7, 3, 42, ["a"], false⟩, .ItemDiscarded 7 2 (-1)) := by
  have h := negative_index_updates_and_discards_last ⟨7, 2, 42, ["a", "b"], false⟩ "z" rfl
    (by simp)
  exact ⟨h.1, h.2⟩
